import Mathlib

/-!
Verification of the royaframe-ha-bridge add-on against its design document.

The JavaScript sources are embedded shallowly: JS strings are modelled as
`List Char`, JS object state as Lean structures, and each event handler as a
pure function from state to state (plus a list of observable effects such as
socket sends).  Where several evolving revisions of a file exist, the newest
revision is embedded (the JWK identity store, and the `register_bridge`
relay client with register timeout).
-/

namespace RoyaBridge

/-! ## Identity store: pair codes (`agentIdentity.js`, `normalizePairCode`) -/

/-- Character class test for the regex `[0-9A-F]`, by code point. -/
def isPairCodeChar (c : Char) : Bool :=
  (48 ≤ c.toNat && c.toNat ≤ 57) || (65 ≤ c.toNat && c.toNat ≤ 70)

/-- Test of the regex `^[0-9A-F]\x7b6\x7d$`: exactly six characters, each in
the class `[0-9A-F]`. -/
def matchesPairCodeRegex (l : List Char) : Bool :=
  l.length == 6 && l.all isPairCodeChar

/-- Whitespace per `String.prototype.trim` of JS, restricted to the ASCII
whitespace code points (tab, LF, VT, FF, CR, space) and NBSP; further Unicode
space code points are not modelled, no claim exercises them. -/
def jsIsWhitespace (c : Char) : Bool :=
  (9 ≤ c.toNat && c.toNat ≤ 13) || c.toNat == 32 || c.toNat == 160

/-- Model of `String.prototype.trim`: drop leading and trailing whitespace. -/
def jsTrim (l : List Char) : List Char :=
  ((l.dropWhile jsIsWhitespace).reverse.dropWhile jsIsWhitespace).reverse

/-- ASCII case mapping of `String.prototype.toUpperCase` for one character
(non-ASCII case mappings are not modelled, no claim exercises them). -/
def jsToUpperChar (c : Char) : Char :=
  if 97 ≤ c.toNat ∧ c.toNat ≤ 122 then Char.ofNat (c.toNat - 32) else c

/-- Model of `String.prototype.toUpperCase` (ASCII). -/
def jsToUpper (l : List Char) : List Char := l.map jsToUpperChar

/-- `normalizePairCode` from `agentIdentity.js`: a falsy (empty) input yields
null; otherwise the input is trimmed and upper-cased, and must match
`^[0-9A-F]\x7b6\x7d$`. -/
def normalizePairCode (input : List Char) : Option (List Char) :=
  if input = [] then none
  else
    let normalized := jsToUpper (jsTrim input)
    if matchesPairCodeRegex normalized then some normalized else none

/-- Loaded state of the identity store relevant to the pair-code operations
(`AgentIdentity` after `load()`; key material is handled separately by the
signature-scheme abstraction below). -/
structure IdentityState where
  pairCode : List Char
  deriving DecidableEq, Repr

/-- `AgentIdentity.setPairCode`: normalize, fail (return false) when
normalization fails, otherwise store the normalized code (persisting when it
changed) and return true. -/
def identitySetPairCode (s : IdentityState) (code : List Char) :
    Bool × IdentityState :=
  match normalizePairCode code with
  | none => (false, s)
  | some normalized =>
    if normalized = s.pairCode then (true, s)
    else (true, { s with pairCode := normalized })

/-- `AgentIdentity.getPairCode` on a loaded store. -/
def identityGetPairCode (s : IdentityState) : List Char := s.pairCode

theorem dropWhile_eq_self_of_not (p : Char → Bool) :
    ∀ l : List Char, (∀ c ∈ l, p c = false) → l.dropWhile p = l := by
  intro l h
  cases l with
  | nil => rfl
  | cons c rest => simp [List.dropWhile, h c (by simp)]

theorem pairCodeChar_not_ws (c : Char) (h : isPairCodeChar c = true) :
    jsIsWhitespace c = false := by
  simp only [isPairCodeChar, Bool.or_eq_true, Bool.and_eq_true,
    decide_eq_true_eq] at h
  simp only [jsIsWhitespace, Bool.or_eq_false_iff, Bool.and_eq_false_iff,
    decide_eq_false_iff_not, beq_eq_false_iff_ne, ne_eq]
  omega

theorem jsTrim_of_pairCode (l : List Char) (h : l.all isPairCodeChar = true) :
    jsTrim l = l := by
  have hmem : ∀ c ∈ l, isPairCodeChar c = true := by
    simpa [List.all_eq_true] using h
  have h1 : l.dropWhile jsIsWhitespace = l :=
    dropWhile_eq_self_of_not _ l fun c hc => pairCodeChar_not_ws c (hmem c hc)
  have h2 : l.reverse.dropWhile jsIsWhitespace = l.reverse :=
    dropWhile_eq_self_of_not _ l.reverse fun c hc =>
      pairCodeChar_not_ws c (hmem c (List.mem_reverse.mp hc))
  simp [jsTrim, h1, h2]

theorem jsToUpperChar_of_pairCode (c : Char) (h : isPairCodeChar c = true) :
    jsToUpperChar c = c := by
  simp only [isPairCodeChar, Bool.or_eq_true, Bool.and_eq_true,
    decide_eq_true_eq] at h
  simp only [jsToUpperChar, ite_eq_right_iff]
  omega

theorem jsToUpper_of_pairCode (l : List Char) (h : l.all isPairCodeChar = true) :
    jsToUpper l = l := by
  induction l with
  | nil => rfl
  | cons c rest ih =>
    simp only [List.all_cons, Bool.and_eq_true] at h
    simp only [jsToUpper, List.map_cons, jsToUpperChar_of_pairCode c h.1,
      List.cons.injEq, true_and]
    simpa [jsToUpper] using ih h.2

theorem normalizePairCode_of_matches (code : List Char)
    (h : matchesPairCodeRegex code = true) :
    normalizePairCode code = some code := by
  have hall : code.all isPairCodeChar = true := by
    simp only [matchesPairCodeRegex, Bool.and_eq_true] at h
    exact h.2
  have hne : code ≠ [] := by
    intro hc
    simp only [matchesPairCodeRegex, Bool.and_eq_true, beq_iff_eq] at h
    simp [hc] at h
  simp [normalizePairCode, hne, jsTrim_of_pairCode _ hall,
    jsToUpper_of_pairCode _ hall, h]

/-- C6 counterexample: the claim says `setPairCode` fails for every string
not matching `^[0-9A-F]\x7b6\x7d$`, but the lower-case input "abcdef" does
not match the pattern yet `setPairCode` succeeds (it normalizes the input to
"ABCDEF" first) and replaces the stored code. -/
theorem c6_counterexample :
    matchesPairCodeRegex ['a', 'b', 'c', 'd', 'e', 'f'] = false ∧
    (identitySetPairCode ⟨['0', '0', '0', '0', '0', '0']⟩
        ['a', 'b', 'c', 'd', 'e', 'f']).1 = true ∧
    identityGetPairCode
        (identitySetPairCode ⟨['0', '0', '0', '0', '0', '0']⟩
          ['a', 'b', 'c', 'd', 'e', 'f']).2 = ['A', 'B', 'C', 'D', 'E', 'F'] := by
  decide

/-- C6 (amended): for every string already matching `^[0-9A-F]\x7b6\x7d$`,
`setPairCode` succeeds and `getPairCode` returns it unchanged; in general
`setPairCode` succeeds exactly when trimming and upper-casing the input makes
it match the pattern, storing that normalized code, and otherwise returns
false leaving the stored code unchanged. -/
theorem c6_setPairCode_normalized (s : IdentityState) (code : List Char) :
    (matchesPairCodeRegex code = true →
      (identitySetPairCode s code).1 = true ∧
      identityGetPairCode (identitySetPairCode s code).2 = code) ∧
    (normalizePairCode code = none →
      (identitySetPairCode s code).1 = false ∧
      (identitySetPairCode s code).2 = s) ∧
    (∀ n, normalizePairCode code = some n →
      (identitySetPairCode s code).1 = true ∧
      identityGetPairCode (identitySetPairCode s code).2 = n) := by
  refine ⟨?_, ?_, ?_⟩
  · intro h
    have hn := normalizePairCode_of_matches code h
    by_cases hc : code = s.pairCode
    · subst hc
      simp [identitySetPairCode, identityGetPairCode, hn]
    · simp [identitySetPairCode, identityGetPairCode, hn, hc]
  · intro h
    simp [identitySetPairCode, h]
  · intro n hn
    by_cases hc : n = s.pairCode
    · subst hc
      simp [identitySetPairCode, identityGetPairCode, hn]
    · simp [identitySetPairCode, identityGetPairCode, hn, hc]

/-- Witness for C6: a concrete valid code is accepted and read back. -/
theorem c6_setPairCode_normalized_witness :
    (identitySetPairCode ⟨['0', '0', '0', '0', '0', '0']⟩
        ['A', 'B', '1', '2', '3', 'F']).1 = true ∧
    identityGetPairCode
        (identitySetPairCode ⟨['0', '0', '0', '0', '0', '0']⟩
          ['A', 'B', '1', '2', '3', 'F']).2 = ['A', 'B', '1', '2', '3', 'F'] :=
  (c6_setPairCode_normalized ⟨['0', '0', '0', '0', '0', '0']⟩
    ['A', 'B', '1', '2', '3', 'F']).1 (by decide)

/-! ## Base64 and base64url transport encodings (`agentIdentity.js`, JWK
revision).  `Buffer.from(s, base64)` and `buffer.toString(base64)` are
platform primitives; they are modelled here by a standard base64
codec on well-formed padded input, which is the only input the identity
store produces or the claims exercise (Node silently tolerates malformed
base64, which no claim depends on). -/

/-- Value of one character of the standard base64 alphabet. -/
def b64CharVal (c : Char) : Option Nat :=
  if 65 ≤ c.toNat ∧ c.toNat ≤ 90 then some (c.toNat - 65)
  else if 97 ≤ c.toNat ∧ c.toNat ≤ 122 then some (c.toNat - 97 + 26)
  else if 48 ≤ c.toNat ∧ c.toNat ≤ 57 then some (c.toNat - 48 + 52)
  else if c = '+' then some 62
  else if c = '/' then some 63
  else none

/-- Character of the standard base64 alphabet for a 6-bit value. -/
def b64ValChar (v : Nat) : Char :=
  if v < 26 then Char.ofNat (65 + v)
  else if v < 52 then Char.ofNat (97 + (v - 26))
  else if v < 62 then Char.ofNat (48 + (v - 52))
  else if v = 62 then '+'
  else '/'

/-- Standard base64 encoding of a byte list, with `=` padding
(`buffer.toString(base64)`). -/
def b64EncodeBytes : List Nat → List Char
  | [] => []
  | [b1] => [b64ValChar (b1 / 4), b64ValChar (b1 % 4 * 16), '=', '=']
  | [b1, b2] =>
    [b64ValChar (b1 / 4), b64ValChar (b1 % 4 * 16 + b2 / 16),
      b64ValChar (b2 % 16 * 4), '=']
  | b1 :: b2 :: b3 :: rest =>
    b64ValChar (b1 / 4) :: b64ValChar (b1 % 4 * 16 + b2 / 16) ::
      b64ValChar (b2 % 16 * 4 + b3 / 64) :: b64ValChar (b3 % 64) ::
      b64EncodeBytes rest

/-- Standard base64 decoding of a padded character list, four characters per
group (`Buffer.from(s, base64)` on well-formed input). -/
def b64DecodeGroups : List Char → Option (List Nat)
  | [] => some []
  | c1 :: c2 :: c3 :: c4 :: rest =>
    match b64CharVal c1, b64CharVal c2 with
    | some v1, some v2 =>
      if c3 = '=' then
        if c4 = '=' ∧ rest = [] then some [v1 * 4 + v2 / 16] else none
      else
        match b64CharVal c3 with
        | some v3 =>
          if c4 = '=' then
            if rest = [] then some [v1 * 4 + v2 / 16, v2 % 16 * 16 + v3 / 4]
            else none
          else
            match b64CharVal c4 with
            | some v4 =>
              match b64DecodeGroups rest with
              | some tl =>
                some ((v1 * 4 + v2 / 16) :: (v2 % 16 * 16 + v3 / 4) ::
                  (v3 % 4 * 64 + v4) :: tl)
              | none => none
            | none => none
        | none => none
    | _, _ => none
  | _ => none

/-- Character map of `base64ToBase64Url`: `+` to `-` and `/` to `_`
(the two global regex replaces). -/
def urlSwapChar (c : Char) : Char :=
  if c = '+' then '-' else if c = '/' then '_' else c

/-- Character map of `base64UrlToBase64`: `-` to `+` and `_` to `/`. -/
def unSwapChar (c : Char) : Char :=
  if c = '-' then '+' else if c = '_' then '/' else c

/-- Trailing `=` removal of `base64ToBase64Url` (the regex replace of
a final run of `=`). -/
def stripTrailingEq (l : List Char) : List Char :=
  (l.reverse.dropWhile (fun c => c = '=')).reverse

/-- `base64ToBase64Url` from `agentIdentity.js`: falsy input is returned
as-is, otherwise swap `+` `/` to `-` `_` and strip trailing padding. -/
def base64ToBase64UrlL (l : List Char) : List Char :=
  if l = [] then l else stripTrailingEq (l.map urlSwapChar)

/-- Padding restoration of `base64UrlToBase64`: pad with `=` to a multiple
of four characters. -/
def padBase64To4 (l : List Char) : List Char :=
  if l.length % 4 = 0 then l else l ++ List.replicate (4 - l.length % 4) '='

/-- `base64UrlToBase64` from `agentIdentity.js`: falsy input is returned
as-is, otherwise swap `-` `_` back to `+` `/` and restore padding. -/
def base64UrlToBase64L (l : List Char) : List Char :=
  if l = [] then l else padBase64To4 (l.map unSwapChar)

/-- `decodeBase64Any` from `agentIdentity.js`: reject falsy input, convert
base64url to standard base64, and decode. -/
def decodeBase64AnyL (l : List Char) : Option (List Nat) :=
  if l = [] then none else b64DecodeGroups (base64UrlToBase64L l)

theorem b64CharVal_valChar : ∀ v, v < 64 → b64CharVal (b64ValChar v) = some v := by
  decide

theorem b64ValChar_ne_eq : ∀ v, v < 64 → b64ValChar v ≠ '=' := by
  decide

theorem unSwap_urlSwap_valChar :
    ∀ v, v < 64 → unSwapChar (urlSwapChar (b64ValChar v)) = b64ValChar v := by
  decide

theorem urlSwap_valChar_ne_eq :
    ∀ v, v < 64 → urlSwapChar (b64ValChar v) ≠ '=' := by
  decide

theorem b64DecodeGroups_encode : ∀ (bytes : List Nat), (∀ b ∈ bytes, b < 256) →
    b64DecodeGroups (b64EncodeBytes bytes) = some bytes
  | [], _ => rfl
  | [b1], h => by
    have hb1 : b1 < 256 := h b1 (by simp)
    simp only [b64EncodeBytes, b64DecodeGroups,
      b64CharVal_valChar (b1 / 4) (by omega),
      b64CharVal_valChar (b1 % 4 * 16) (by omega)]
    simp only [Option.some.injEq, List.cons.injEq, and_true]
    simp
    omega
  | [b1, b2], h => by
    have hb1 : b1 < 256 := h b1 (by simp)
    have hb2 : b2 < 256 := h b2 (by simp)
    simp only [b64EncodeBytes, b64DecodeGroups,
      b64CharVal_valChar (b1 / 4) (by omega),
      b64CharVal_valChar (b1 % 4 * 16 + b2 / 16) (by omega),
      b64CharVal_valChar (b2 % 16 * 4) (by omega),
      b64ValChar_ne_eq (b2 % 16 * 4) (by omega)]
    have e1 : b1 / 4 * 4 + (b1 % 4 * 16 + b2 / 16) / 16 = b1 := by omega
    have e2 : (b1 % 4 * 16 + b2 / 16) % 16 * 16 + b2 % 16 * 4 / 4 = b2 := by
      omega
    simp [if_neg (b64ValChar_ne_eq (b2 % 16 * 4) (by omega)), e1]
    omega
  | b1 :: b2 :: b3 :: b4 :: rest, h => by
    have hb1 : b1 < 256 := h b1 (by simp)
    have hb2 : b2 < 256 := h b2 (by simp)
    have hb3 : b3 < 256 := h b3 (by simp)
    have ih := b64DecodeGroups_encode (b4 :: rest)
      (fun b hb => h b (by simp at hb ⊢; tauto))
    simp only [b64EncodeBytes, b64DecodeGroups,
      b64CharVal_valChar (b1 / 4) (by omega),
      b64CharVal_valChar (b1 % 4 * 16 + b2 / 16) (by omega),
      b64CharVal_valChar (b2 % 16 * 4 + b3 / 64) (by omega),
      b64CharVal_valChar (b3 % 64) (by omega),
      if_neg (b64ValChar_ne_eq (b2 % 16 * 4 + b3 / 64) (by omega)),
      if_neg (b64ValChar_ne_eq (b3 % 64) (by omega)), ih]
    have e1 : b1 / 4 * 4 + (b1 % 4 * 16 + b2 / 16) / 16 = b1 := by omega
    have e2 : (b1 % 4 * 16 + b2 / 16) % 16 * 16 +
        (b2 % 16 * 4 + b3 / 64) / 4 = b2 := by omega
    have e3 : (b2 % 16 * 4 + b3 / 64) % 4 * 64 + b3 % 64 = b3 := by omega
    simp [e1, e2, e3]
  | [b1, b2, b3], h => by
    have hb1 : b1 < 256 := h b1 (by simp)
    have hb2 : b2 < 256 := h b2 (by simp)
    have hb3 : b3 < 256 := h b3 (by simp)
    simp only [b64EncodeBytes, b64DecodeGroups,
      b64CharVal_valChar (b1 / 4) (by omega),
      b64CharVal_valChar (b1 % 4 * 16 + b2 / 16) (by omega),
      b64CharVal_valChar (b2 % 16 * 4 + b3 / 64) (by omega),
      b64CharVal_valChar (b3 % 64) (by omega),
      if_neg (b64ValChar_ne_eq (b2 % 16 * 4 + b3 / 64) (by omega)),
      if_neg (b64ValChar_ne_eq (b3 % 64) (by omega))]
    have e1 : b1 / 4 * 4 + (b1 % 4 * 16 + b2 / 16) / 16 = b1 := by omega
    have e2 : (b1 % 4 * 16 + b2 / 16) % 16 * 16 +
        (b2 % 16 * 4 + b3 / 64) / 4 = b2 := by omega
    have e3 : (b2 % 16 * 4 + b3 / 64) % 4 * 64 + b3 % 64 = b3 := by omega
    simp [e1, e2, e3]

theorem b64EncodeBytes_shape : ∀ (bytes : List Nat), (∀ b ∈ bytes, b < 256) →
    ∃ core k, b64EncodeBytes bytes = core ++ List.replicate k '=' ∧ k ≤ 2 ∧
      (∀ c ∈ core, ∃ v, v < 64 ∧ c = b64ValChar v) ∧
      (core.length + k) % 4 = 0 ∧ (bytes ≠ [] → core ≠ [])
  | [], _ => ⟨[], 0, by simp [b64EncodeBytes]⟩
  | [b1], h => by
    have hb1 : b1 < 256 := h b1 (by simp)
    refine ⟨[b64ValChar (b1 / 4), b64ValChar (b1 % 4 * 16)], 2, ?_, by omega,
      ?_, by simp, by simp⟩
    · simp [b64EncodeBytes, List.replicate]
    · intro c hc
      simp only [List.mem_cons, List.not_mem_nil, or_false] at hc
      rcases hc with rfl | rfl
      · exact ⟨b1 / 4, by omega, rfl⟩
      · exact ⟨b1 % 4 * 16, by omega, rfl⟩
  | [b1, b2], h => by
    have hb1 : b1 < 256 := h b1 (by simp)
    have hb2 : b2 < 256 := h b2 (by simp)
    refine ⟨[b64ValChar (b1 / 4), b64ValChar (b1 % 4 * 16 + b2 / 16),
      b64ValChar (b2 % 16 * 4)], 1, ?_, by omega, ?_, by simp, by simp⟩
    · simp [b64EncodeBytes, List.replicate]
    · intro c hc
      simp only [List.mem_cons, List.not_mem_nil, or_false] at hc
      rcases hc with rfl | rfl | rfl
      · exact ⟨b1 / 4, by omega, rfl⟩
      · exact ⟨b1 % 4 * 16 + b2 / 16, by omega, rfl⟩
      · exact ⟨b2 % 16 * 4, by omega, rfl⟩
  | b1 :: b2 :: b3 :: rest, h => by
    have hb1 : b1 < 256 := h b1 (by simp)
    have hb2 : b2 < 256 := h b2 (by simp)
    have hb3 : b3 < 256 := h b3 (by simp)
    obtain ⟨core, k, hE, hk, hvc, hlen, _⟩ := b64EncodeBytes_shape rest
      (fun b hb => h b (by simp [hb]))
    refine ⟨b64ValChar (b1 / 4) :: b64ValChar (b1 % 4 * 16 + b2 / 16) ::
      b64ValChar (b2 % 16 * 4 + b3 / 64) :: b64ValChar (b3 % 64) :: core,
      k, ?_, hk, ?_, ?_, by simp⟩
    · simp [b64EncodeBytes, hE]
    · intro c hc
      simp only [List.mem_cons] at hc
      rcases hc with rfl | rfl | rfl | rfl | hc
      · exact ⟨b1 / 4, by omega, rfl⟩
      · exact ⟨b1 % 4 * 16 + b2 / 16, by omega, rfl⟩
      · exact ⟨b2 % 16 * 4 + b3 / 64, by omega, rfl⟩
      · exact ⟨b3 % 64, by omega, rfl⟩
      · exact hvc c hc
    · simp only [List.length_cons]
      omega

theorem dropWhile_replicate_eq (k : Nat) (l : List Char) :
    List.dropWhile (fun c => c = '=') (List.replicate k '=' ++ l) =
      List.dropWhile (fun c => c = '=') l := by
  induction k with
  | zero => simp
  | succ n ih => simp [List.replicate_succ, List.dropWhile, ih]

theorem stripTrailingEq_append_replicate (core : List Char) (k : Nat)
    (h : ∀ c ∈ core, c ≠ '=') :
    stripTrailingEq (core ++ List.replicate k '=') = core := by
  simp only [stripTrailingEq, List.reverse_append, List.reverse_replicate]
  rw [dropWhile_replicate_eq,
    dropWhile_eq_self_of_not _ _ (fun c hc => by
      simp [h c (List.mem_reverse.mp hc)]),
    List.reverse_reverse]

theorem map_unSwap_urlSwap (core : List Char)
    (hvc : ∀ c ∈ core, ∃ v, v < 64 ∧ c = b64ValChar v) :
    (core.map urlSwapChar).map unSwapChar = core := by
  induction core with
  | nil => rfl
  | cons c cs ih =>
    obtain ⟨v, hv, hceq⟩ := hvc c (List.mem_cons_self c cs)
    subst hceq
    simp only [List.map_cons, unSwap_urlSwap_valChar v hv, List.cons.injEq,
      true_and]
    exact ih (fun c hc => hvc c (by simp [hc]))

theorem padBase64To4_core (core : List Char) (k : Nat) (hk : k ≤ 2)
    (hlen : (core.length + k) % 4 = 0) :
    padBase64To4 core = core ++ List.replicate k '=' := by
  by_cases hz : core.length % 4 = 0
  · have : k = 0 := by omega
    subst this
    simp [padBase64To4, hz]
  · have hrep : 4 - core.length % 4 = k := by omega
    simp [padBase64To4, hz, hrep]

/-- Abstract interface of the Ed25519 primitives `crypto.sign(null, data,
privateKeyObj)` and `crypto.verify(null, data, publicKeyObj, sig)` for one
fixed keypair, the one the identity store loads.  Its correctness and
unforgeability laws are stated as hypotheses of the theorems using it. -/
structure Ed25519 where
  sign : List Nat → List Nat
  verify : List Nat → List Nat → Bool

/-- `AgentIdentity.sign` from the JWK revision of `agentIdentity.js`: decode
the nonce from base64/base64url to raw bytes (throwing, modelled as `none`,
when the nonce does not decode), sign the raw bytes with Ed25519, and return
the signature base64url-encoded. -/
def agentSign (sch : Ed25519) (nonceB64 : List Char) : Option (List Char) :=
  match decodeBase64AnyL nonceB64 with
  | none => none
  | some nonceBytes =>
    some (base64ToBase64UrlL (b64EncodeBytes (sch.sign nonceBytes)))

/-- `AgentIdentity.verify` from the JWK revision of `agentIdentity.js`:
decode nonce and signature and check the signature over the raw nonce
bytes under the stored public key. -/
def agentVerify (sch : Ed25519) (nonceB64 sigB64 : List Char) : Option Bool :=
  match decodeBase64AnyL nonceB64, decodeBase64AnyL sigB64 with
  | some nb, some sb => some (sch.verify nb sb)
  | _, _ => none

/-- Decoding inverts the signature pipeline of `AgentIdentity.sign`:
base64-encode, convert to base64url, decode back. -/
theorem decodeAny_encode_url (bytes : List Nat) (hne : bytes ≠ [])
    (h : ∀ b ∈ bytes, b < 256) :
    decodeBase64AnyL (base64ToBase64UrlL (b64EncodeBytes bytes)) =
      some bytes := by
  obtain ⟨core, k, hE, hk, hvc, hlen, hcne⟩ := b64EncodeBytes_shape bytes h
  have hcore : core ≠ [] := hcne hne
  have hmapped : ∀ c ∈ core.map urlSwapChar, c ≠ '=' := by
    intro c hc
    obtain ⟨d, hd, rfl⟩ := List.mem_map.mp hc
    obtain ⟨v, hv, rfl⟩ := hvc d hd
    exact urlSwap_valChar_ne_eq v hv
  have hEne : b64EncodeBytes bytes ≠ [] := by
    rw [hE]
    simp [hcore]
  have hswapeq : urlSwapChar '=' = '=' := by decide
  have hswap : (b64EncodeBytes bytes).map urlSwapChar =
      core.map urlSwapChar ++ List.replicate k '=' := by
    rw [hE]
    simp [List.map_replicate, hswapeq]
  have hstrip : base64ToBase64UrlL (b64EncodeBytes bytes) =
      core.map urlSwapChar := by
    rw [base64ToBase64UrlL, if_neg hEne, hswap]
    exact stripTrailingEq_append_replicate _ k hmapped
  have hstrip_ne : core.map urlSwapChar ≠ [] := by
    simp [hcore]
  rw [hstrip, decodeBase64AnyL, if_neg hstrip_ne, base64UrlToBase64L,
    if_neg hstrip_ne, map_unSwap_urlSwap core hvc,
    padBase64To4_core core k hk hlen, ← hE]
  exact b64DecodeGroups_encode bytes h

/-- C1: for every transport-encoded server nonce that decodes to raw bytes,
`AgentIdentity.sign` deterministically produces a signature over exactly
those decoded bytes — the signature decodes back to the Ed25519 primitive
applied to the decoded nonce, and any other transport encoding of the same
bytes (base64 or base64url) yields the identical signature, so the encoded
string itself is never what gets signed.  `verify(n, sign(n))` is true, a
signature whose bytes differ from the genuine one verifies false, and the
signature transplanted onto a different nonce verifies false (assuming, as
for real Ed25519, that the two nonces do not collide to the same signature).
The Ed25519 primitive is abstract; its determinism, correctness and strong
unforgeability for the loaded keypair are the stated hypotheses. -/
theorem c1_sign_over_decoded_nonce (sch : Ed25519)
    (hcorrect : ∀ m, sch.verify m (sch.sign m) = true)
    (hsound : ∀ m s, sch.verify m s = true → s = sch.sign m)
    (hlen : ∀ m, (sch.sign m).length = 64)
    (hbytes : ∀ m, ∀ b ∈ sch.sign m, b < 256)
    (nonceB64 : List Char) (nonceBytes : List Nat)
    (hdec : decodeBase64AnyL nonceB64 = some nonceBytes) :
    ∃ sig : List Char,
      agentSign sch nonceB64 = some sig ∧
      decodeBase64AnyL sig = some (sch.sign nonceBytes) ∧
      (∀ other, decodeBase64AnyL other = some nonceBytes →
        agentSign sch other = some sig) ∧
      agentVerify sch nonceB64 sig = some true ∧
      (∀ sig2 sb2, decodeBase64AnyL sig2 = some sb2 →
        sb2 ≠ sch.sign nonceBytes →
        agentVerify sch nonceB64 sig2 = some false) ∧
      (∀ nonce2 nb2, decodeBase64AnyL nonce2 = some nb2 →
        sch.sign nb2 ≠ sch.sign nonceBytes →
        agentVerify sch nonce2 sig = some false) := by
  have hsne : sch.sign nonceBytes ≠ [] := by
    intro h0
    have hl := hlen nonceBytes
    rw [h0] at hl
    simp at hl
  have hsig : decodeBase64AnyL
      (base64ToBase64UrlL (b64EncodeBytes (sch.sign nonceBytes))) =
      some (sch.sign nonceBytes) :=
    decodeAny_encode_url _ hsne (hbytes nonceBytes)
  refine ⟨base64ToBase64UrlL (b64EncodeBytes (sch.sign nonceBytes)),
    ?_, hsig, ?_, ?_, ?_, ?_⟩
  · simp [agentSign, hdec]
  · intro other hother
    simp [agentSign, hother]
  · simp [agentVerify, hdec, hsig, hcorrect]
  · intro sig2 sb2 hdec2 hne2
    simp only [agentVerify, hdec, hdec2, Option.some.injEq]
    cases hv : sch.verify nonceBytes sb2
    · rfl
    · exact absurd (hsound _ _ hv) hne2
  · intro nonce2 nb2 hdec2 hne2
    simp only [agentVerify, hdec2, hsig, Option.some.injEq]
    cases hv : sch.verify nb2 (sch.sign nonceBytes)
    · rfl
    · exact absurd (hsound _ _ hv).symm hne2

/-- Concrete scheme satisfying the abstract Ed25519 laws, used only to
instantiate the hypotheses of the C1 theorem at a concrete input. -/
def witnessEd25519 : Ed25519 where
  sign m := (m.map (fun b => b % 256) ++ List.replicate 64 0).take 64
  verify m s := s == (m.map (fun b => b % 256) ++ List.replicate 64 0).take 64

theorem witnessEd25519_correct (m : List Nat) :
    witnessEd25519.verify m (witnessEd25519.sign m) = true := by
  simp [witnessEd25519]

theorem witnessEd25519_sound (m s : List Nat)
    (h : witnessEd25519.verify m s = true) : s = witnessEd25519.sign m := by
  simpa [witnessEd25519] using h

theorem witnessEd25519_len (m : List Nat) :
    (witnessEd25519.sign m).length = 64 := by
  simp [witnessEd25519]

theorem witnessEd25519_bytes (m : List Nat) :
    ∀ b ∈ witnessEd25519.sign m, b < 256 := by
  intro b hb
  simp only [witnessEd25519] at hb
  have hb2 := List.mem_of_mem_take hb
  rcases List.mem_append.mp hb2 with hmap | hrep
  · obtain ⟨x, _, rfl⟩ := List.mem_map.mp hmap
    omega
  · have := List.eq_of_mem_replicate hrep
    omega

/-- Witness for C1 at the nonce "AQID" (base64 of the bytes 1, 2, 3). -/
theorem c1_sign_over_decoded_nonce_witness :
    ∃ sig : List Char,
      agentSign witnessEd25519 ['A', 'Q', 'I', 'D'] = some sig ∧
      decodeBase64AnyL sig = some (witnessEd25519.sign [1, 2, 3]) ∧
      (∀ other, decodeBase64AnyL other = some [1, 2, 3] →
        agentSign witnessEd25519 other = some sig) ∧
      agentVerify witnessEd25519 ['A', 'Q', 'I', 'D'] sig = some true ∧
      (∀ sig2 sb2, decodeBase64AnyL sig2 = some sb2 →
        sb2 ≠ witnessEd25519.sign [1, 2, 3] →
        agentVerify witnessEd25519 ['A', 'Q', 'I', 'D'] sig2 = some false) ∧
      (∀ nonce2 nb2, decodeBase64AnyL nonce2 = some nb2 →
        witnessEd25519.sign nb2 ≠ witnessEd25519.sign [1, 2, 3] →
        agentVerify witnessEd25519 nonce2 sig = some false) :=
  c1_sign_over_decoded_nonce witnessEd25519 witnessEd25519_correct
    witnessEd25519_sound witnessEd25519_len witnessEd25519_bytes
    ['A', 'Q', 'I', 'D'] [1, 2, 3] (by decide)

/-! ## Relay client (`relay.js`, newest revision: `register_bridge` handshake
with register timeout).  Each `ws` event handler becomes a pure function
from the client state to a new state plus a list of observable effects. -/

/-- The `STATUS` constants of `relay.js`. -/
inductive RelayStatus where
  | disconnected
  | configError
  | connecting
  | connected
  | registering
  | registeredSt
  | unauthorized
  | wrongEndpoint
  | error
  deriving DecidableEq, Repr

/-- Ready state of the underlying `ws` socket object. -/
inductive WsReady where
  | connecting
  | open
  | closing
  | closed
  deriving DecidableEq, Repr

/-- Outbound relay messages produced by `send` (payloads the claims do not
inspect are collapsed to tags and correlation ids; `state_changed` data is an
opaque value). -/
inductive RelayOut where
  | registerBridge (pairCode : Option String) (homeId : String)
  | serviceResult (requestId : Option Nat) (success : Bool) (err : Option String)
  | statesReply (requestId : Option Nat)
  | errorReply (requestId : Option Nat) (err : String)
  | pong (requestId : Option Nat)
  | stateChanged (data : Nat)
  deriving DecidableEq, Repr

/-- Observable side effects of the relay client handlers. -/
inductive RelayEffect where
  | sent (m : RelayOut)
  | terminated
  | closedWith (code : Nat)
  | closedSocket
  | emitDisconnected
  | emitRegistered
  | emitPaired
  | destroyedRequest
  | scheduledReconnect (delayMs : Nat)
  deriving DecidableEq, Repr

/-- Mutable fields of the `RelayClient` instance.  Timer handles are
modelled as pending flags; `maxReconnectDelay` and `baseReconnectDelay` are
the constants 300000 and 5000. -/
structure RelayState where
  ws : Option WsReady
  pairCode : Option String
  pendingPairCode : Option String
  awaitingRegisterOk : Bool
  registered : Bool
  reconnectDelay : Nat
  reconnectTimer : Bool
  registerTimer : Bool
  enabled : Bool
  homeId : Option String
  locationName : Option String
  status : RelayStatus
  lastError : Option String
  shouldRetry : Bool
  deriving DecidableEq, Repr

def relayBaseDelay : Nat := 5000

def relayMaxDelay : Nat := 300000

/-- The `RelayClient` constructor. -/
def initialRelayState : RelayState where
  ws := none
  pairCode := none
  pendingPairCode := none
  awaitingRegisterOk := false
  registered := false
  reconnectDelay := 5000
  reconnectTimer := false
  registerTimer := false
  enabled := false
  homeId := none
  locationName := none
  status := RelayStatus.disconnected
  lastError := none
  shouldRetry := true

/-- JS `a || d` for a nullable string `a` with string default: null and the
empty string are falsy. -/
def jsOrDefault (a : Option String) (d : String) : String :=
  match a with
  | some v => if v = "" then d else v
  | none => d

/-- JS `a || b` for two nullable strings. -/
def jsOrStrOpt (a b : Option String) : Option String :=
  match a with
  | some v => if v = "" then b else some v
  | none => b

/-- JS truthiness of a nullable string. -/
def jsTruthyStr (a : Option String) : Bool :=
  match a with
  | some v => v ≠ ""
  | none => false

def seqStartsWith : List Char → List Char → Bool
  | _, [] => true
  | [], _ :: _ => false
  | a :: as, b :: bs => a = b && seqStartsWith as bs

def seqContains : List Char → List Char → Bool
  | [], pat => seqStartsWith [] pat
  | a :: rest, pat => seqStartsWith (a :: rest) pat || seqContains rest pat

/-- JS `String.prototype.includes`. -/
def strContains (s pat : String) : Bool := seqContains s.toList pat.toList

def registerTimeoutMsg : String :=
  "Registration timeout: expected register_ok from relay"

def unauthorizedHttpMsg : String :=
  "401 Unauthorized: token mismatch or RELAY_TOKEN not set on relay worker."

def badRequestMsg : String :=
  "400 Bad Request: wrong endpoint / no websocket upgrade / bad request."

def okNoUpgradeMsg : String := "200 OK: wrong endpoint / no websocket upgrade."

def unexpectedHttpMsg (code : Nat) : String :=
  "Unexpected server response: HTTP " ++ toString code

def abnormalCloseMsg : String :=
  "1006 Abnormal close: relay server unavailable or rejected connection."

def connectionClosedMsg (code : Nat) : String :=
  if code = 0 then "Connection closed" else "Connection closed: " ++ toString code

def closedBeforeRegisterMsg (code : Nat) (reason : String) : String :=
  "Relay closed before register_ok (code=" ++ toString code ++ " reason=" ++
    (if reason = "" then "none" else reason) ++ ")"

def unauthorizedWorkerMsg : String :=
  "Unauthorized: RELAY_TOKEN mismatch or not set on Worker. Check add-on config and Worker environment."

/-- `invalidatePairCode`: clear the active code, keep the pending one. -/
def relayInvalidatePairCode (s : RelayState) : RelayState :=
  { s with pairCode := none }

/-- `setStatus(status, error)`: `lastError` is only overwritten by a truthy
error argument. -/
def relaySetStatus (s : RelayState) (st : RelayStatus) (err : Option String) :
    RelayState :=
  let newErr := match err with | some e => some e | none => s.lastError
  { s with status := st, lastError := newErr }

def relayClearRegisterTimer (s : RelayState) : RelayState :=
  { s with registerTimer := false }

/-- `startRegisterTimeout`: arm the 10 s registration timer. -/
def relayStartRegisterTimeout (s : RelayState) : RelayState :=
  { s with registerTimer := true }

/-- Duration in ms of the registration timer armed by
`startRegisterTimeout` (`REGISTER_TIMEOUT_MS`). -/
def registerTimeoutMs : Nat := 10000

/-- `send(msg)`: serialized and written only while the socket is open. -/
def relaySend (s : RelayState) (m : RelayOut) : List RelayEffect :=
  match s.ws with
  | some WsReady.open => [RelayEffect.sent m]
  | _ => []

/-- `this.homeId || this.locationName || unknown` in `register()`. -/
def relayHomeId (s : RelayState) : String :=
  jsOrDefault s.homeId (jsOrDefault s.locationName "unknown")

/-- `register()`: mark registering, arm the timeout, send `register_bridge`
with the pending pair code and home id. -/
def relayRegister (s : RelayState) : RelayState × List RelayEffect :=
  let s := relaySetStatus s RelayStatus.registering none
  let s := { s with awaitingRegisterOk := true }
  let s := relayStartRegisterTimeout s
  (s, relaySend s (RelayOut.registerBridge s.pendingPairCode (relayHomeId s)))

/-- Firing of the registration timer: when still awaiting `register_ok`,
record the timeout error, invalidate the pair code and forcibly terminate
the socket. -/
def relayRegisterTimeoutFire (s : RelayState) : RelayState × List RelayEffect :=
  if ¬ s.awaitingRegisterOk then (s, [])
  else
    let s := relaySetStatus s RelayStatus.disconnected (some registerTimeoutMsg)
    let s := relayInvalidatePairCode s
    match s.ws with
    | some _ => (s, [RelayEffect.terminated])
    | none => (s, [])

/-- New stored delay after `scheduleReconnect` doubles with cap. -/
def nextReconnectDelay (d : Nat) : Nat := min (d * 2) relayMaxDelay

/-- `scheduleReconnect()`: no-op when a timer is pending, the client is
disabled, or retry is off; otherwise arm a timer with the current delay
(returned) and double the stored delay up to the cap. -/
def relayScheduleReconnect (s : RelayState) : RelayState × Option Nat :=
  if s.reconnectTimer ∨ ¬ s.enabled ∨ ¬ s.shouldRetry then (s, none)
  else
    let s2 := { s with reconnectTimer := true }
    ({ s2 with reconnectDelay := nextReconnectDelay s.reconnectDelay },
      some s.reconnectDelay)

/-- `connect()`: guarded by `enabled`/`shouldRetry` and an existing live
socket; `createErr` is the outcome of `new WebSocket` (a throw carries an
error message). -/
def relayConnect (createErr : Option String) (s : RelayState) : RelayState :=
  if ¬ s.enabled then s
  else if ¬ s.shouldRetry then s
  else
    match s.ws with
    | some WsReady.open => s
    | some WsReady.connecting => s
    | _ =>
      let s := relaySetStatus s RelayStatus.connecting none
      match createErr with
      | none => { s with ws := some WsReady.connecting }
      | some m =>
        let s := relaySetStatus s RelayStatus.error
          (some ("Failed to create WebSocket: " ++ m))
        (relayScheduleReconnect s).1

/-- The `open` event: the socket becomes open, the backoff resets to its
base, and `register()` runs immediately. -/
def relayOpenEvent (s : RelayState) : RelayState × List RelayEffect :=
  let s := { s with ws := some WsReady.open }
  let s := { s with lastError := none, reconnectDelay := relayBaseDelay }
  relayRegister s

/-- Status branch of the `close` handler: pick the actionable error message
by close code unless a terminal status must be preserved. -/
def relayCloseStatusUpdate (wasAwaitingRegister : Bool) (code : Nat)
    (reason : String) (s : RelayState) : RelayState :=
  let preserveStatus := s.status = RelayStatus.unauthorized ∨
    s.status = RelayStatus.wrongEndpoint ∨ s.status = RelayStatus.configError
  if wasAwaitingRegister ∧ ¬ preserveStatus then
    relaySetStatus s RelayStatus.error
      (some (closedBeforeRegisterMsg code reason))
  else if code = 1006 then
    if ¬ preserveStatus then
      relaySetStatus s RelayStatus.disconnected (some abnormalCloseMsg)
    else s
  else if ¬ preserveStatus then
    relaySetStatus s RelayStatus.disconnected (some (connectionClosedMsg code))
  else s

/-- Tail of the `close` handler: emit `disconnected` and, when retry is
permitted, schedule the backoff reconnect. -/
def relayRetryTail (s : RelayState) : RelayState × List RelayEffect :=
  if s.shouldRetry = true then
    match relayScheduleReconnect s with
    | (s2, some dd) =>
      (s2, [RelayEffect.emitDisconnected, RelayEffect.scheduledReconnect dd])
    | (s2, none) => (s2, [RelayEffect.emitDisconnected])
  else (s, [RelayEffect.emitDisconnected])

/-- The `close` event handler. -/
def relayCloseEvent (s : RelayState) (code : Nat) (reason : String) :
    RelayState × List RelayEffect :=
  let s := { s with ws := some WsReady.closed }
  let wasAwaitingRegister := s.awaitingRegisterOk
  let s := { s with registered := false }
  let s := relayInvalidatePairCode s
  let s := { s with awaitingRegisterOk := false }
  let s := relayClearRegisterTimer s
  relayRetryTail (relayCloseStatusUpdate wasAwaitingRegister code reason s)

/-- The `unexpected-response` handler: HTTP replies received before the
WebSocket upgrade completes. -/
def relayUnexpectedResponse (s : RelayState) (statusCode : Nat) :
    RelayState × List RelayEffect :=
  let s :=
    if statusCode = 401 then
      relaySetStatus { s with shouldRetry := false } RelayStatus.unauthorized
        (some unauthorizedHttpMsg)
    else if statusCode = 400 then
      relaySetStatus { s with shouldRetry := false } RelayStatus.wrongEndpoint
        (some badRequestMsg)
    else if statusCode = 200 then
      relaySetStatus { s with shouldRetry := false } RelayStatus.wrongEndpoint
        (some okNoUpgradeMsg)
    else
      relaySetStatus s RelayStatus.error (some (unexpectedHttpMsg statusCode))
  let s := relayInvalidatePairCode s
  let s := relayClearRegisterTimer s
  let s := { s with awaitingRegisterOk := false }
  (s, [RelayEffect.emitDisconnected, RelayEffect.destroyedRequest])

/-- Parsed inbound relay frames (`handleMessage`). -/
inductive RelayInMsg where
  | agentOk
  | agentUnauthorized
  | registerOk (pairCode : Option String)
  | registeredMsg
  | paired (clientId : Option String)
  | callService (requestId : Option Nat)
  | getStates (requestId : Option Nat)
  | ping (requestId : Option Nat)
  | errorMsg (err : Option String)
  | unknown (t : String)
  deriving DecidableEq, Repr

/-- `handleMessage`: dispatch one parsed frame.  The outcomes of the awaited
hub calls (`haWS.callService`, `haWS.request`) are passed as `Except`
values. -/
def relayHandleMessage (hubCall : Except String Unit)
    (hubStates : Except String Unit) (s : RelayState) (m : RelayInMsg) :
    RelayState × List RelayEffect :=
  match m with
  | RelayInMsg.agentOk => (s, [])
  | RelayInMsg.agentUnauthorized =>
    let s := relaySetStatus { s with shouldRetry := false }
      RelayStatus.unauthorized (some unauthorizedHttpMsg)
    let s := relayInvalidatePairCode s
    match s.ws with
    | some _ => (s, [RelayEffect.closedWith 1008])
    | none => (s, [])
  | RelayInMsg.registerOk pc =>
    if ¬ s.awaitingRegisterOk then (s, [])
    else
      let s := { s with registered := true, awaitingRegisterOk := false }
      let s := relayClearRegisterTimer s
      let ackCode := jsOrStrOpt pc s.pendingPairCode
      let s := { s with pairCode := ackCode, pendingPairCode := ackCode }
      let s := { s with lastError := none }
      (relaySetStatus s RelayStatus.connected none, [RelayEffect.emitRegistered])
  | RelayInMsg.registeredMsg =>
    let s := { s with registered := true, awaitingRegisterOk := false }
    let s := relayClearRegisterTimer s
    let s := { s with pairCode := s.pendingPairCode, lastError := none }
    (relaySetStatus s RelayStatus.connected none, [RelayEffect.emitRegistered])
  | RelayInMsg.paired _ =>
    ({ s with pairCode := none, pendingPairCode := none },
      [RelayEffect.emitPaired])
  | RelayInMsg.callService rid =>
    match hubCall with
    | Except.ok _ => (s, relaySend s (RelayOut.serviceResult rid true none))
    | Except.error e =>
      (s, relaySend s (RelayOut.serviceResult rid false (some e)))
  | RelayInMsg.getStates rid =>
    match hubStates with
    | Except.ok _ => (s, relaySend s (RelayOut.statesReply rid))
    | Except.error e => (s, relaySend s (RelayOut.errorReply rid e))
  | RelayInMsg.ping rid => (s, relaySend s (RelayOut.pong rid))
  | RelayInMsg.errorMsg e =>
    let errorStr := jsOrDefault e "unknown error"
    if errorStr = "unauthorized" ∨ strContains errorStr "unauthorized" then
      let s := relaySetStatus { s with shouldRetry := false }
        RelayStatus.unauthorized (some unauthorizedWorkerMsg)
      let s := relayInvalidatePairCode s
      let s := { s with awaitingRegisterOk := false }
      let s := relayClearRegisterTimer s
      match s.ws with
      | some _ => (s, [RelayEffect.closedWith 1008])
      | none => (s, [])
    else
      (relaySetStatus s RelayStatus.error (some ("Relay error: " ++ errorStr)),
        [])
  | RelayInMsg.unknown _ => (s, [])

/-- `forwardStateChange(data)`: send `state_changed` while registered. -/
def relayForwardStateChange (s : RelayState) (d : Nat) : List RelayEffect :=
  if s.registered then relaySend s (RelayOut.stateChanged d) else []

/-- `getPairCode()`: the active code is exposed only while registered. -/
def relayGetPairCode (s : RelayState) : Option String :=
  if s.registered then s.pairCode else none

/-- `stop()`: disable, cancel timers, close and drop the socket, clear
registration and pair code, status `disconnected`. -/
def relayStop (s : RelayState) : RelayState × List RelayEffect :=
  let s := { s with enabled := false, shouldRetry := false }
  let s := { s with awaitingRegisterOk := false }
  let s := relayClearRegisterTimer s
  let s := { s with reconnectTimer := false }
  let step : RelayState × List RelayEffect :=
    match s.ws with
    | some _ => ({ s with ws := none }, [RelayEffect.closedSocket])
    | none => (s, [])
  let s := { step.1 with registered := false }
  let s := relayInvalidatePairCode s
  (relaySetStatus s RelayStatus.disconnected none, step.2)

/-- The HA configuration `start()` fetches, reduced to the fields the relay
client keeps (`deriveHomeId` collapses to the derived value). -/
structure HaCfg where
  locationName : Option String
  derivedHomeId : Option String
  deriving DecidableEq, Repr

/-- `start()`: config validation, pending pair-code generation (`genCode` is
the random draw), best-effort config fetch, then enable and connect. -/
def relayStart (configErrors : List String) (genCode : String)
    (cfg : Option HaCfg) (s : RelayState) : RelayState × Bool :=
  if configErrors ≠ [] then
    ({ relaySetStatus s RelayStatus.configError
        (some ("CONFIG ERROR: " ++ String.intercalate "; " configErrors)) with
      shouldRetry := false }, false)
  else
    let s := if jsTruthyStr s.pendingPairCode then s
      else { s with pendingPairCode := some genCode }
    let s := match cfg with
      | some c =>
        { s with locationName := c.locationName, homeId := c.derivedHomeId }
      | none => s
    let s := { s with enabled := true, shouldRetry := true, lastError := none }
    let s := { s with reconnectDelay := relayBaseDelay }
    (relayConnect none s, true)


/-- Projection facts used to track the pair code through handler pipelines. -/
theorem relaySetStatus_pairCode (s : RelayState) (st : RelayStatus)
    (err : Option String) : (relaySetStatus s st err).pairCode = s.pairCode := by
  simp [relaySetStatus]

theorem relaySetStatus_registered (s : RelayState) (st : RelayStatus)
    (err : Option String) :
    (relaySetStatus s st err).registered = s.registered := by
  simp [relaySetStatus]

theorem relayScheduleReconnect_pairCode (s : RelayState) :
    (relayScheduleReconnect s).1.pairCode = s.pairCode := by
  unfold relayScheduleReconnect
  split <;> simp

theorem relayScheduleReconnect_registered (s : RelayState) :
    (relayScheduleReconnect s).1.registered = s.registered := by
  unfold relayScheduleReconnect
  split <;> simp

theorem relayCloseStatusUpdate_pairCode (w : Bool) (code : Nat)
    (reason : String) (s : RelayState) :
    (relayCloseStatusUpdate w code reason s).pairCode = s.pairCode := by
  unfold relayCloseStatusUpdate
  dsimp only
  split
  · simp [relaySetStatus]
  · split
    · split <;> simp [relaySetStatus]
    · split <;> simp [relaySetStatus]

theorem relayCloseStatusUpdate_registered (w : Bool) (code : Nat)
    (reason : String) (s : RelayState) :
    (relayCloseStatusUpdate w code reason s).registered = s.registered := by
  unfold relayCloseStatusUpdate
  dsimp only
  split
  · simp [relaySetStatus]
  · split
    · split <;> simp [relaySetStatus]
    · split <;> simp [relaySetStatus]

theorem relayRetryTail_pairCode (s : RelayState) :
    (relayRetryTail s).1.pairCode = s.pairCode := by
  unfold relayRetryTail
  by_cases h : s.shouldRetry = true
  · simp only [h, if_true]
    have h1 := relayScheduleReconnect_pairCode s
    rcases hsr : relayScheduleReconnect s with ⟨s2, d⟩
    rw [hsr] at h1
    cases d <;> simpa using h1
  · simp [h]

theorem relayRetryTail_registered (s : RelayState) :
    (relayRetryTail s).1.registered = s.registered := by
  unfold relayRetryTail
  by_cases h : s.shouldRetry = true
  · simp only [h, if_true]
    have h1 := relayScheduleReconnect_registered s
    rcases hsr : relayScheduleReconnect s with ⟨s2, d⟩
    rw [hsr] at h1
    cases d <;> simpa using h1
  · simp [h]

/-- C3 counterexample: in the connecting state reached by a successful
`start()`, an HTTP 403 on upgrade sets status `error`, not `unauthorized`
(403 falls into the generic branch); and after an HTTP 401 retry is
disabled, so `scheduleReconnect` refuses to arm any reconnect timer: no
reconnect attempt with fresh authentication is scheduled (nor does any
session token exist to clear — the bearer token is static configuration). -/
theorem c3_counterexample :
    ((relayUnexpectedResponse
        (relayStart [] "AB12CD" none initialRelayState).1 403).1.status =
      RelayStatus.error ∧
     (relayUnexpectedResponse
        (relayStart [] "AB12CD" none initialRelayState).1 403).1.status ≠
      RelayStatus.unauthorized) ∧
    ((relayUnexpectedResponse
        (relayStart [] "AB12CD" none initialRelayState).1 401).1.shouldRetry =
      false ∧
     (relayScheduleReconnect (relayUnexpectedResponse
        (relayStart [] "AB12CD" none initialRelayState).1 401).1).2 = none ∧
     (relayScheduleReconnect (relayUnexpectedResponse
        (relayStart [] "AB12CD" none initialRelayState).1 401).1).1.reconnectTimer =
      false) := by
  decide

/-- C3 (amended): a pre-upgrade HTTP 401 sets status `unauthorized`, clears
the active pair code and disables retry, so no reconnect is scheduled
(`scheduleReconnect` becomes a no-op); there is no cached session token in
this client, the bearer token being static configuration.  A pre-upgrade
HTTP 403 is not treated specially: it yields status `error` with the pair
code cleared and `shouldRetry` unchanged, any reconnect happening only
through a later close event. -/
theorem c3_unexpected_response_amended (s : RelayState) :
    ((relayUnexpectedResponse s 401).1.status = RelayStatus.unauthorized ∧
     (relayUnexpectedResponse s 401).1.pairCode = none ∧
     (relayUnexpectedResponse s 401).1.shouldRetry = false ∧
     relayScheduleReconnect (relayUnexpectedResponse s 401).1 =
       ((relayUnexpectedResponse s 401).1, none)) ∧
    ((relayUnexpectedResponse s 403).1.status = RelayStatus.error ∧
     (relayUnexpectedResponse s 403).1.pairCode = none ∧
     (relayUnexpectedResponse s 403).1.shouldRetry = s.shouldRetry) := by
  refine ⟨⟨?_, ?_, ?_, ?_⟩, ?_, ?_, ?_⟩ <;>
    simp [relayUnexpectedResponse, relaySetStatus, relayInvalidatePairCode,
      relayClearRegisterTimer, relayScheduleReconnect]

/-- C4: `scheduleReconnect` arms a timer with the current stored delay and
doubles the stored delay capped at 300000 ms; absent jitter (this client has
none) the successive delays from the 5000 ms base are
`min (5000 * 2 ^ n) 300000`, doubling strictly until the cap; and a
successful socket `open` resets the stored delay to 5000 ms. -/
theorem c4_backoff_doubles_resets :
    (∀ s : RelayState, s.enabled = true → s.shouldRetry = true →
      s.reconnectTimer = false →
      (relayScheduleReconnect s).2 = some s.reconnectDelay ∧
      (relayScheduleReconnect s).1.reconnectDelay =
        min (s.reconnectDelay * 2) 300000) ∧
    (∀ n : Nat, Nat.iterate nextReconnectDelay n 5000 =
      min (5000 * 2 ^ n) 300000) ∧
    (∀ d : Nat, d * 2 ≤ 300000 → nextReconnectDelay d = d * 2) ∧
    (∀ s : RelayState, (relayOpenEvent s).1.reconnectDelay = 5000) := by
  refine ⟨?_, ?_, ?_, ?_⟩
  · intro s hen hretry htimer
    simp [relayScheduleReconnect, htimer, hen, hretry, nextReconnectDelay,
      relayMaxDelay]
  · intro n
    induction n with
    | zero => simp
    | succ n ih =>
      rw [Function.iterate_succ_apply', ih]
      unfold nextReconnectDelay relayMaxDelay
      rcases le_or_lt (5000 * 2 ^ n) 300000 with h | h
      · rw [min_eq_left h, pow_succ]
        ring_nf
      · have h2 : 300000 ≤ 5000 * 2 ^ (n + 1) := by
          calc (300000 : Nat) ≤ 5000 * 2 ^ n := le_of_lt h
          _ ≤ 5000 * 2 ^ (n + 1) :=
            Nat.mul_le_mul_left 5000 (Nat.pow_le_pow_right (by norm_num) (by omega))
        rw [min_eq_right (le_of_lt h), min_eq_right h2]
        norm_num
  · intro d hd
    simp [nextReconnectDelay, relayMaxDelay, hd]
  · intro s
    simp [relayOpenEvent, relayRegister, relaySetStatus,
      relayStartRegisterTimeout, relayBaseDelay]

/-- Witness for C4 at the state reached by a successful `start()`:
the first scheduled delay is the 5000 ms base and the stored delay doubles
to 10000 ms. -/
theorem c4_backoff_doubles_resets_witness :
    (relayScheduleReconnect
      (relayStart [] "AB12CD" none initialRelayState).1).2 = some 5000 ∧
    (relayScheduleReconnect
      (relayStart [] "AB12CD" none initialRelayState).1).1.reconnectDelay =
      min (5000 * 2) 300000 :=
  c4_backoff_doubles_resets.1 (relayStart [] "AB12CD" none initialRelayState).1
    (by decide) (by decide) (by decide)



/-- C5: when the 10 s registration timer fires while still awaiting
`register_ok` with a live socket, the socket is forcibly terminated and the
observable status carries the registration-timeout error; the close event
the termination produces then schedules a standard backoff reconnect (with
the current stored delay, doubling it up to the cap). -/
theorem c5_register_timeout_terminates (s : RelayState) (w : WsReady)
    (hawait : s.awaitingRegisterOk = true) (hws : s.ws = some w)
    (hen : s.enabled = true) (hretry : s.shouldRetry = true)
    (htimer : s.reconnectTimer = false) :
    RelayEffect.terminated ∈ (relayRegisterTimeoutFire s).2 ∧
    (relayRegisterTimeoutFire s).1.lastError = some registerTimeoutMsg ∧
    (relayRegisterTimeoutFire s).1.status = RelayStatus.disconnected ∧
    (relayRegisterTimeoutFire s).1.pairCode = none ∧
    (relayCloseEvent (relayRegisterTimeoutFire s).1 1006 "").1.reconnectTimer =
      true ∧
    RelayEffect.scheduledReconnect s.reconnectDelay ∈
      (relayCloseEvent (relayRegisterTimeoutFire s).1 1006 "").2 ∧
    (relayCloseEvent (relayRegisterTimeoutFire s).1 1006 "").1.reconnectDelay =
      min (s.reconnectDelay * 2) 300000 := by
  simp only [relayRegisterTimeoutFire, hawait, Bool.not_true, Bool.false_eq_true,
    if_false, ite_false, ite_true]
  simp only [relaySetStatus, relayInvalidatePairCode, hws]
  refine ⟨by simp, by simp, by simp, by simp, ?_, ?_, ?_⟩ <;>
    simp [relayCloseEvent, relayCloseStatusUpdate, relayRetryTail,
      relaySetStatus, relayInvalidatePairCode, relayClearRegisterTimer,
      relayScheduleReconnect, hawait, hen, hretry, htimer,
      nextReconnectDelay, relayMaxDelay]

/-- Witness for C5 at the registering state reached by `start()` followed by
the socket `open` event. -/
theorem c5_register_timeout_terminates_witness :
    RelayEffect.terminated ∈
      (relayRegisterTimeoutFire
        (relayOpenEvent (relayStart [] "AB12CD" none initialRelayState).1).1).2 ∧
    (relayRegisterTimeoutFire
      (relayOpenEvent
        (relayStart [] "AB12CD" none initialRelayState).1).1).1.lastError =
      some registerTimeoutMsg ∧
    (relayRegisterTimeoutFire
      (relayOpenEvent
        (relayStart [] "AB12CD" none initialRelayState).1).1).1.status =
      RelayStatus.disconnected ∧
    (relayRegisterTimeoutFire
      (relayOpenEvent
        (relayStart [] "AB12CD" none initialRelayState).1).1).1.pairCode =
      none ∧
    (relayCloseEvent
      (relayRegisterTimeoutFire
        (relayOpenEvent
          (relayStart [] "AB12CD" none initialRelayState).1).1).1 1006
        "").1.reconnectTimer = true ∧
    RelayEffect.scheduledReconnect
      (relayOpenEvent
        (relayStart [] "AB12CD" none initialRelayState).1).1.reconnectDelay ∈
      (relayCloseEvent
        (relayRegisterTimeoutFire
          (relayOpenEvent
            (relayStart [] "AB12CD" none initialRelayState).1).1).1 1006 "").2 ∧
    (relayCloseEvent
      (relayRegisterTimeoutFire
        (relayOpenEvent
          (relayStart [] "AB12CD" none initialRelayState).1).1).1 1006
        "").1.reconnectDelay =
      min ((relayOpenEvent
        (relayStart [] "AB12CD" none initialRelayState).1).1.reconnectDelay * 2)
        300000 :=
  c5_register_timeout_terminates
    (relayOpenEvent (relayStart [] "AB12CD" none initialRelayState).1).1
    WsReady.open (by decide) (by decide) (by decide) (by decide) (by decide)

/-- C9 counterexample: starting from the constructor state, a successful
`start()`, the socket `open` event and a single `register_ok` frame reach a
registered state in which no viewer or app-count information was ever
received (the embedded client state has no such field and `handleMessage`
treats any such frame as unknown); `forwardStateChange` nevertheless sends
the `state_changed` message to the relay. -/
theorem c9_counterexample :
    (relayHandleMessage (Except.ok ()) (Except.ok ())
      (relayOpenEvent (relayStart [] "AB12CD" none initialRelayState).1).1
      (RelayInMsg.registerOk none)).1.registered = true ∧
    relayForwardStateChange
      (relayHandleMessage (Except.ok ()) (Except.ok ())
        (relayOpenEvent (relayStart [] "AB12CD" none initialRelayState).1).1
        (RelayInMsg.registerOk none)).1 42 =
      [RelayEffect.sent (RelayOut.stateChanged 42)] := by
  decide

/-- C9 (amended): outbound `state_changed` forwarding is gated only on the
registration flag and an open socket; the relay client of the source tracks
no viewer or app count, so the message is sent whenever registered even if
no viewer information was ever received. -/
theorem c9_forward_gated_on_registered (s : RelayState) (d : Nat) :
    relayForwardStateChange s d =
      if s.registered = true ∧ s.ws = some WsReady.open
      then [RelayEffect.sent (RelayOut.stateChanged d)] else [] := by
  by_cases hr : s.registered
  · cases hws : s.ws with
    | none => simp [relayForwardStateChange, relaySend, hr, hws]
    | some w => cases w <;> simp [relayForwardStateChange, relaySend, hr, hws]
  · simp [relayForwardStateChange, hr]

/-- C10: `getPairCode` can return a non-null code only while `registered` is
true (the getter itself gates on the flag), and every path that ends a
session clears the active pair code: the `close` handler (which also clears
`registered`), a pre-upgrade HTTP rejection, an `agent_unauthorized` frame,
an in-band unauthorized `error` frame, and `stop()`. -/
theorem c10_pair_code_registered_invariant :
    (∀ s : RelayState, relayGetPairCode s ≠ none → s.registered = true) ∧
    (∀ (s : RelayState) (code : Nat) (reason : String),
      (relayCloseEvent s code reason).1.pairCode = none ∧
      (relayCloseEvent s code reason).1.registered = false) ∧
    (∀ (s : RelayState) (statusCode : Nat),
      (relayUnexpectedResponse s statusCode).1.pairCode = none) ∧
    (∀ (hubC hubS : Except String Unit) (s : RelayState),
      (relayHandleMessage hubC hubS s RelayInMsg.agentUnauthorized).1.pairCode =
        none) ∧
    (∀ (hubC hubS : Except String Unit) (s : RelayState) (e : Option String),
      strContains (jsOrDefault e "unknown error") "unauthorized" = true →
      (relayHandleMessage hubC hubS s (RelayInMsg.errorMsg e)).1.pairCode =
        none) ∧
    (∀ s : RelayState, (relayStop s).1.pairCode = none ∧
      (relayStop s).1.registered = false) := by
  refine ⟨?_, ?_, ?_, ?_, ?_, ?_⟩
  · intro s h
    by_cases hr : s.registered
    · exact hr
    · simp [relayGetPairCode, hr] at h
  · intro s code reason
    unfold relayCloseEvent
    constructor
    · rw [relayRetryTail_pairCode, relayCloseStatusUpdate_pairCode]
      simp [relayClearRegisterTimer, relayInvalidatePairCode]
    · rw [relayRetryTail_registered, relayCloseStatusUpdate_registered]
      simp [relayClearRegisterTimer, relayInvalidatePairCode]
  · intro s statusCode
    unfold relayUnexpectedResponse
    simp [relayInvalidatePairCode, relayClearRegisterTimer]
  · intro hubC hubS s
    unfold relayHandleMessage
    simp only [relaySetStatus, relayInvalidatePairCode]
    split <;> simp
  · intro hubC hubS s e h
    unfold relayHandleMessage
    simp only [h, or_true, if_true, relaySetStatus, relayInvalidatePairCode,
      relayClearRegisterTimer]
    split <;> simp
  · intro s
    unfold relayStop
    simp only [relaySetStatus, relayInvalidatePairCode,
      relayClearRegisterTimer]
    exact ⟨trivial, trivial⟩

/-- Witness for C10: in the registered state of the C9 trace the getter
does return a code and the gate forces `registered`; receiving an in-band
unauthorized error clears the code. -/
theorem c10_pair_code_registered_invariant_witness :
    (relayHandleMessage (Except.ok ()) (Except.ok ())
      (relayOpenEvent (relayStart [] "AB12CD" none initialRelayState).1).1
      (RelayInMsg.registerOk none)).1.registered = true ∧
    (relayHandleMessage (Except.ok ()) (Except.ok ())
      (relayHandleMessage (Except.ok ()) (Except.ok ())
        (relayOpenEvent (relayStart [] "AB12CD" none initialRelayState).1).1
        (RelayInMsg.registerOk none)).1
      (RelayInMsg.errorMsg (some "unauthorized"))).1.pairCode = none :=
  ⟨c10_pair_code_registered_invariant.1
      (relayHandleMessage (Except.ok ()) (Except.ok ())
        (relayOpenEvent (relayStart [] "AB12CD" none initialRelayState).1).1
        (RelayInMsg.registerOk none)).1 (by decide),
    c10_pair_code_registered_invariant.2.2.2.2.1 (Except.ok ()) (Except.ok ())
      (relayHandleMessage (Except.ok ()) (Except.ok ())
        (relayOpenEvent (relayStart [] "AB12CD" none initialRelayState).1).1
        (RelayInMsg.registerOk none)).1 (some "unauthorized") (by decide)⟩



/-! ## Local fan-out server (`wsServer.js`). -/

/-- Parsed inbound local-client messages (`handleClientMessage` after
`JSON.parse`; a parse failure is its own case). -/
inductive LocalInMsg where
  | callService (id : Option Nat) (domain service : Option String)
  | getStates (id : Option Nat)
  | ping (id : Option Nat)
  | unknownType (t : String) (id : Option Nat)
  | invalidJson
  deriving DecidableEq, Repr

/-- Replies the local server sends to one client (`sendResponse` merges the
request id into the payload when one was given). -/
inductive LocalOut where
  | serviceResult (id : Option Nat) (success : Bool)
  | statesReply (id : Option Nat)
  | pong (id : Option Nat)
  | errorReply (id : Option Nat) (err : String)
  deriving DecidableEq, Repr

/-- `sendResponse`: written only while this client socket is open. -/
def wsSendResponse (wsOpen : Bool) (m : LocalOut) : List LocalOut :=
  if wsOpen then [m] else []

/-- `WSServer.handleClientMessage`: dispatch one client message; the awaited
hub calls (`haWS.callService`, `haWS.request`) are passed as `Except`
values, and a rejection is caught and turned into an `error` reply.  The
second component is whether the server closes this client connection (it
never does). -/
def wsHandleClientMessage (wsOpen : Bool) (hubCall : Except String Unit)
    (hubStates : Except String Unit) (m : LocalInMsg) :
    List LocalOut × Bool :=
  match m with
  | LocalInMsg.invalidJson =>
    (wsSendResponse wsOpen (LocalOut.errorReply none "Invalid JSON"), false)
  | LocalInMsg.callService rid dom svc =>
    if jsTruthyStr dom = false ∨ jsTruthyStr svc = false then
      (wsSendResponse wsOpen
        (LocalOut.errorReply rid "Missing domain or service"), false)
    else
      match hubCall with
      | Except.ok _ =>
        (wsSendResponse wsOpen (LocalOut.serviceResult rid true), false)
      | Except.error e =>
        (wsSendResponse wsOpen (LocalOut.errorReply rid e), false)
  | LocalInMsg.getStates rid =>
    match hubStates with
    | Except.ok _ => (wsSendResponse wsOpen (LocalOut.statesReply rid), false)
    | Except.error e =>
      (wsSendResponse wsOpen (LocalOut.errorReply rid e), false)
  | LocalInMsg.ping rid => (wsSendResponse wsOpen (LocalOut.pong rid), false)
  | LocalInMsg.unknownType t rid =>
    (wsSendResponse wsOpen
      (LocalOut.errorReply rid ("Unknown message type: " ++ t)), false)

/-- C7: a `get_states` request while the hub rejects (hub unreachable:
`haWS.request` rejects with its error message, e.g. "Not connected to Home
Assistant") is answered on the same connection by an `error` reply carrying
the client's own request id and the hub error message, and the server never
drops a local connection while handling any client message. -/
theorem c7_hub_error_reply :
    (∀ (hubCall : Except String Unit) (e : String) (rid : Nat),
      wsHandleClientMessage true hubCall (Except.error e)
        (LocalInMsg.getStates (some rid)) =
        ([LocalOut.errorReply (some rid) e], false)) ∧
    (∀ (wsOpen : Bool) (hubC hubS : Except String Unit) (m : LocalInMsg),
      (wsHandleClientMessage wsOpen hubC hubS m).2 = false) := by
  constructor
  · intro hubCall e rid
    simp [wsHandleClientMessage, wsSendResponse]
  · intro wsOpen hubC hubS m
    cases m with
    | callService rid d sv =>
      simp only [wsHandleClientMessage]
      split
      · rfl
      · cases hubC <;> rfl
    | getStates rid => cases hubS <;> rfl
    | ping rid => rfl
    | unknownType t rid => rfl
    | invalidJson => rfl

/-- A member of the broadcast set: socket id, whether its ready state is
OPEN, and whether the underlying send succeeds. -/
structure LocalClient where
  cid : Nat
  readyOpen : Bool
  deliverOk : Bool
  deriving DecidableEq, Repr

/-- `WSServer.broadcast`: iterate over the client set and write the
serialized message to every client whose ready state is OPEN (the send on a
given socket is independent of every other member). -/
def wsBroadcastAttempts (clients : List LocalClient) (msg : String) :
    List (Nat × String) :=
  (clients.filter (fun c => c.readyOpen)).map (fun c => (c.cid, msg))

/-- Deliveries of one `broadcast`: the attempted sends whose underlying
send succeeds. -/
def wsBroadcastDelivered (clients : List LocalClient) (msg : String) :
    List (Nat × String) :=
  (clients.filter (fun c => c.readyOpen && c.deliverOk)).map
    (fun c => (c.cid, msg))

/-- C8: in a broadcast, a member with a closed socket, or one whose send
fails, has no effect on delivery to the other members; in particular with
three clients where the second socket is closed, clients 1 and 3 still
receive the message. -/
theorem c8_broadcast_isolated_failures :
    (∀ (pre post : List LocalClient) (cid : Nat) (dOk : Bool) (msg : String),
      wsBroadcastDelivered (pre ++ ⟨cid, false, dOk⟩ :: post) msg =
        wsBroadcastDelivered (pre ++ post) msg) ∧
    (∀ (pre post : List LocalClient) (cid : Nat) (msg : String),
      wsBroadcastDelivered (pre ++ ⟨cid, true, false⟩ :: post) msg =
        wsBroadcastDelivered (pre ++ post) msg) ∧
    wsBroadcastDelivered
      [⟨1, true, true⟩, ⟨2, false, true⟩, ⟨3, true, true⟩] "m" =
      [(1, "m"), (3, "m")] := by
  refine ⟨?_, ?_, by decide⟩
  · intro pre post cid dOk msg
    simp [wsBroadcastDelivered, List.filter_append]
  · intro pre post cid msg
    simp [wsBroadcastDelivered, List.filter_append]

/-! ## Session token refresh (Relay Session Manager, final revision). -/

/-- Modelled from the spec: the `SessionToken` owned by the final Relay
Session Manager.  The challenge/issue authentication and token lifecycle
code is not among the sources under src/ (the sources hold earlier
revisions using a static bearer token; only the spec and the browser UI —
a consumer showing the `authenticating` ui_state — refer to the token
flow), so this follows the spec: a cached opaque token with an absolute
expiry time. -/
structure SessionTokenState where
  agentToken : Option String
  tokenExpiresAt : Int
  deriving DecidableEq, Repr

/-- What the `connecting` step does about authentication. -/
inductive ConnectAuth where
  | freshAuth
  | reuseToken (t : String)
  deriving DecidableEq, Repr

/-- Modelled from the spec: step 1 of the connect sequence — "if the current
token is absent or expires within a safety margin (60s) of now, invoke
`authenticate()`; otherwise reuse it". -/
def connectTokenDecision (s : SessionTokenState) (now : Int) : ConnectAuth :=
  match s.agentToken with
  | none => ConnectAuth.freshAuth
  | some t =>
    if s.tokenExpiresAt - now ≤ 60000 then ConnectAuth.freshAuth
    else ConnectAuth.reuseToken t

/-- C2: whenever the cached token is absent or `tokenExpiresAt − now ≤
60000` ms, the next `connect()` authenticates freshly instead of reusing
the cached token; when the token expires later than the margin, `connect()`
reuses it. -/
theorem c2_token_refresh_margin (s : SessionTokenState) (now : Int) :
    (s.tokenExpiresAt - now ≤ 60000 →
      connectTokenDecision s now = ConnectAuth.freshAuth) ∧
    (s.agentToken = none →
      connectTokenDecision s now = ConnectAuth.freshAuth) ∧
    (∀ t, s.agentToken = some t → 60000 < s.tokenExpiresAt - now →
      connectTokenDecision s now = ConnectAuth.reuseToken t) := by
  refine ⟨?_, ?_, ?_⟩
  · intro h
    cases ht : s.agentToken with
    | none => simp [connectTokenDecision, ht]
    | some t => simp [connectTokenDecision, ht, h]
  · intro h
    simp [connectTokenDecision, h]
  · intro t ht h
    simp [connectTokenDecision, ht]
    omega

/-- Witness for C2: a token 50 s from expiry is refreshed, one 120 s from
expiry is reused. -/
theorem c2_token_refresh_margin_witness :
    connectTokenDecision ⟨some "tok", 100000⟩ 50000 = ConnectAuth.freshAuth ∧
    connectTokenDecision ⟨some "tok", 170000⟩ 50000 =
      ConnectAuth.reuseToken "tok" :=
  ⟨(c2_token_refresh_margin ⟨some "tok", 100000⟩ 50000).1 (by decide),
    (c2_token_refresh_margin ⟨some "tok", 170000⟩ 50000).2.2 "tok" rfl
      (by decide)⟩


end RoyaBridge
